import Mathlib

/-!
Verification of the `grok_api.py` CLI client (scripts/grok_api.py).

The Python source is shallowly embedded: strings are `List Char`, JSON values
are an inductive `Json`, the network and `json.loads` are oracles carried by a
`World`, and each `cmd_*` function is translated into a pure Lean function
returning the requests it issued, the text printed on stdout / stderr, and how
the process terminated.
-/

namespace Grok

/-- Convert a Lean string literal to the `List Char` representation used
throughout the embedding. -/
def str (s : String) : List Char := s.toList

/-- Characters removed by Python `str.strip()` (ASCII whitespace). -/
def isPySpace (c : Char) : Bool :=
  c == ' ' || c == '\t' || c == '\n' || c == '\r' || c == Char.ofNat 11 || c == Char.ofNat 12

/-- Python `s.strip()`: remove whitespace from both ends. -/
def pyStrip (cs : List Char) : List Char :=
  ((cs.dropWhile isPySpace).reverse.dropWhile isPySpace).reverse

/-- Python `needle in hay` substring test. -/
def containsSub (needle : List Char) : List Char → Bool
  | [] => List.isPrefixOf needle []
  | c :: t => List.isPrefixOf needle (c :: t) || containsSub needle t

/-- Python `s.removeprefix(p)`. -/
def pyRemovePre (p cs : List Char) : List Char :=
  if List.isPrefixOf p cs then cs.drop p.length else cs

/-- Python `s[-n:]`: the last `n` characters (the whole string when shorter). -/
def lastN (n : Nat) (cs : List Char) : List Char :=
  cs.drop (cs.length - n)

/-- Concatenation of a list of strings (used for joined stream bodies and
joined printed lines). -/
def catLines : List (List Char) → List Char
  | [] => []
  | l :: ls => l ++ catLines ls

/-- Python `s.endswith(suf)`, used to express the regex suffix condition. -/
def endsWith (suf cs : List Char) : Bool :=
  List.isPrefixOf suf.reverse cs.reverse

/-- Match a literal prefix, returning the remainder on success. -/
def stripPre : List Char → List Char → Option (List Char)
  | [], cs => some cs
  | _ :: _, [] => none
  | p :: ps, c :: cs => if p = c then stripPre ps cs else none

/-- JSON values as produced by `json.loads` (numbers restricted to integers;
no claim involves numeric payloads). -/
inductive Json where
  | null
  | bool (b : Bool)
  | num (n : Int)
  | str (s : List Char)
  | arr (elems : List Json)
  | obj (fields : List (List Char × Json))

/-- Python exceptions that the script can raise while picking a response
apart.  `json.JSONDecodeError` is modelled separately (a parse oracle
returning `none`). -/
inductive PyErr where
  | jsonDecodeError
  | keyError
  | indexError
  | typeError
  | attributeError
deriving DecidableEq

/-- Dictionary lookup (JSON objects have unique keys, first match). -/
def lookupField : List (List Char × Json) → List Char → Option Json
  | [], _ => none
  | (k, v) :: rest, key => if k = key then some v else lookupField rest key

/-- Python `x[k]` for a string key `k`: KeyError on a dict without the key,
TypeError on anything that is not a dict. -/
def pyGetItemStr (j : Json) (k : List Char) : Except PyErr Json :=
  match j with
  | .obj fields =>
    match lookupField fields k with
    | some v => .ok v
    | none => .error .keyError
  | _ => .error .typeError

/-- Python `x[0]`: first element of a list (IndexError when empty), KeyError
on a dict (its keys are strings), first character of a string, TypeError
otherwise. -/
def pyGetItemZero (j : Json) : Except PyErr Json :=
  match j with
  | .arr [] => .error .indexError
  | .arr (x :: _) => .ok x
  | .obj _ => .error .keyError
  | .str [] => .error .indexError
  | .str (c :: _) => .ok (.str [c])
  | _ => .error .typeError

/-- Python `x.get(k, d)`: AttributeError unless `x` is a dict. -/
def pyDictGet (j : Json) (k : List Char) (d : Json) : Except PyErr Json :=
  match j with
  | .obj fields => .ok ((lookupField fields k).getD d)
  | _ => .error .attributeError

/-- Python iteration `for m in x`: list elements, characters of a string,
keys of a dict; TypeError otherwise. -/
def pyIter (j : Json) : Except PyErr (List Json) :=
  match j with
  | .arr xs => .ok xs
  | .str s => .ok (s.map fun c => .str [c])
  | .obj fs => .ok (fs.map fun f => .str f.1)
  | _ => .error .typeError

mutual

/-- Python `repr` of a JSON value (string escaping simplified; every value a
claim exercises is printed through the string case of `pyStr`). -/
def pyRepr : Json → List Char
  | .null => str "None"
  | .bool true => str "True"
  | .bool false => str "False"
  | .num n => (toString n).toList
  | .str s => Char.ofNat 39 :: s ++ [Char.ofNat 39]
  | .arr xs => '[' :: pyReprList xs ++ [']']
  | .obj fs => Char.ofNat 123 :: pyReprFields fs ++ [Char.ofNat 125]

/-- Comma-separated `repr`s of list elements. -/
def pyReprList : List Json → List Char
  | [] => []
  | [x] => pyRepr x
  | x :: y :: t => pyRepr x ++ str ", " ++ pyReprList (y :: t)

/-- Comma-separated `repr`s of dict entries. -/
def pyReprFields : List (List Char × Json) → List Char
  | [] => []
  | [(k, v)] => pyRepr (.str k) ++ str ": " ++ pyRepr v
  | (k, v) :: e :: t => pyRepr (.str k) ++ str ": " ++ pyRepr v ++ str ", " ++ pyReprFields (e :: t)

end

/-- Python `str(x)` as used by `print`. -/
def pyStr : Json → List Char
  | .str s => s
  | j => pyRepr j

/-- `data["choices"][0]["delta"].get("content", "")` from the streaming
branches of `cmd_chat` / `cmd_file` / `cmd_video`. -/
def extractDeltaJson (j : Json) : Except PyErr Json :=
  match pyGetItemStr j (str "choices") with
  | .error e => .error e
  | .ok choices =>
    match pyGetItemZero choices with
    | .error e => .error e
    | .ok c0 =>
      match pyGetItemStr c0 (str "delta") with
      | .error e => .error e
      | .ok delta => pyDictGet delta (str "content") (.str [])

/-- `result["choices"][0]["message"]["content"]` from the non-streaming
branches of `cmd_chat` / `cmd_file` / `cmd_image`. -/
def extractMessageJson (j : Json) : Except PyErr Json :=
  match pyGetItemStr j (str "choices") with
  | .error e => .error e
  | .ok choices =>
    match pyGetItemZero choices with
    | .error e => .error e
    | .ok c0 =>
      match pyGetItemStr c0 (str "message") with
      | .error e => .error e
      | .ok msg => pyGetItemStr msg (str "content")

/-- Parse a chunk and extract its delta content, `none` when either step
fails (used only to state hypotheses about well-formed chunks). -/
def chunkDelta (parse : List Char → Option Json) (chunk : List Char) : Option Json :=
  match parse chunk with
  | none => none
  | some j =>
    match extractDeltaJson j with
    | .error _ => none
    | .ok c => some c

/-- How the `for line in resp` loop of the streaming branches ended. -/
inductive StreamOutcome where
  | ended
  | done (rest : List (List Char))
  | aborted (e : PyErr)
deriving DecidableEq

/-- Result of the streaming display loop: text printed to stdout and how the
loop terminated (`done rest` keeps the lines left unconsumed by `break`). -/
structure StreamRun where
  out : List Char
  outcome : StreamOutcome
deriving DecidableEq

/-- Body of the streaming loop for one line (already `.strip()`ed), given the
lines still pending and the run produced by the rest of the loop. -/
def stepLine (parse : List Char → Option Json) (l : List Char)
    (rest : List (List Char)) (r : StreamRun) : StreamRun :=
  if List.isPrefixOf (str "data: ") l then
    let chunk := List.drop 6 l
    if chunk = str "[DONE]" then ⟨str "\n", .done rest⟩
    else
      match parse chunk with
      | none => r
      | some j =>
        match extractDeltaJson j with
        | .error e => ⟨[], .aborted e⟩
        | .ok content => ⟨pyStr content ++ r.out, r.outcome⟩
  else r

/-- The streaming display loop of `cmd_chat` / `cmd_file` (lines 69-83 and
98-112): strip each line, handle `data: ` lines, print deltas, stop on
`[DONE]`; only `json.JSONDecodeError` is caught. -/
def processStream (parse : List Char → Option Json) : List (List Char) → StreamRun
  | [] => ⟨[], .ended⟩
  | line :: rest => stepLine parse (pyStrip line) rest (processStream parse rest)

/-- The abort status of a stream outcome (which uncaught exception, if any). -/
def outKind : StreamOutcome → Option PyErr
  | .aborted e => some e
  | _ => none

/-- Observable output of a stream run: printed text plus abort status
(ignoring which unread lines remain buffered). -/
def display (r : StreamRun) : List Char × Option PyErr :=
  (r.out, outKind r.outcome)

/-- Progress loop of `cmd_video` (lines 160-171), restricted to what it
prints on stderr.  For each line containing the literal progress marker it
re-parses the chunk, extracts the delta content, and when the content has a
nonempty strip and differs (raw, unstripped) from the stored value it prints
a carriage return plus the stripped content and stores the stripped content.
`except Exception: pass` swallows every failure, including non-string
content. -/
def videoProgress (parse : List Char → Option Json) : List Char → List (List Char) → List Char
  | _, [] => []
  | last, line :: rest =>
    let l := pyStrip line
    if containsSub (str "进度") l then
      match parse (pyRemovePre (str "data: ") l) with
      | some j =>
        match extractDeltaJson j with
        | .ok (Json.str c) =>
          if pyStrip c ≠ [] ∧ c ≠ last then
            str "\r" ++ pyStrip c ++ videoProgress parse (pyStrip c) rest
          else videoProgress parse last rest
        | _ => videoProgress parse last rest
      | none => videoProgress parse last rest
    else videoProgress parse last rest

/-- Attempt of `re.search(r'src="([^"]+)"', content)` at one position: the
literal `src="`, a maximal nonempty run of non-quote characters, and the
closing quote; the captured group is the run. -/
def matchSrcAt (cs : List Char) : Option (List Char) :=
  match stripPre (str "src=\"") cs with
  | none => none
  | some rest =>
    let u := rest.takeWhile fun c => !(c == '"')
    match rest.dropWhile fun c => !(c == '"') with
    | c :: _ => if c = '"' ∧ u ≠ [] then some u else none
    | [] => none

/-- `re.search`: try a single-position matcher at each position left to
right, returning the first captured group. -/
def reSearch (mAt : List Char → Option (List Char)) : List Char → Option (List Char)
  | [] => mAt []
  | c :: t =>
    match mAt (c :: t) with
    | some u => some u
    | none => reSearch mAt t

/-- `re.search(r'src="([^"]+)"', content)` of `cmd_image`. -/
def searchSrc (cs : List Char) : Option (List Char) := reSearch matchSrcAt cs

/-- Characters allowed in the `[^"\\]+` classes of the video patterns. -/
def vidChar (c : Char) : Bool := !(c == '"' || c == '\\')

/-- Attempt of `re.search(r'src=\\"(https://[^"\\]+\.mp4)\\"', full_str)` at
one position.  After the literal `src=\"https://` the greedy class takes the
maximal run of non-quote non-backslash characters; backtracking succeeds
exactly when that run ends in `.mp4`, is long enough to leave the `+` a
character, and is followed by the literal `\"`.  The captured group is
`https://` plus the run. -/
def matchVidEscAt (cs : List Char) : Option (List Char) :=
  match stripPre (str "src=\\\"https://") cs with
  | none => none
  | some rest =>
    let m := rest.takeWhile vidChar
    match rest.dropWhile vidChar with
    | c1 :: c2 :: _ =>
      if c1 = '\\' ∧ c2 = '"' ∧ 5 ≤ m.length ∧ endsWith (str ".mp4") m = true
      then some (str "https://" ++ m)
      else none
    | _ => none

/-- Attempt of the unescaped variant `re.search(r'src="(https://[^"]+\.mp4)"',
full_str)` at one position (same backtracking analysis with only `"`
excluded from the class). -/
def matchVidPlainAt (cs : List Char) : Option (List Char) :=
  match stripPre (str "src=\"https://") cs with
  | none => none
  | some rest =>
    let m := rest.takeWhile fun c => !(c == '"')
    match rest.dropWhile fun c => !(c == '"') with
    | c :: _ =>
      if c = '"' ∧ 5 ≤ m.length ∧ endsWith (str ".mp4") m = true
      then some (str "https://" ++ m)
      else none
    | [] => none

/-- Attempt of `re.search(r'poster=\\"(https://[^"\\]+)\\"', full_str)` at
one position. -/
def matchPosterAt (cs : List Char) : Option (List Char) :=
  match stripPre (str "poster=\\\"https://") cs with
  | none => none
  | some rest =>
    let m := rest.takeWhile vidChar
    match rest.dropWhile vidChar with
    | c1 :: c2 :: _ =>
      if c1 = '\\' ∧ c2 = '"' ∧ m ≠ [] then some (str "https://" ++ m) else none
    | _ => none

/-- Escaped-quote video URL search (tried first in `cmd_video`). -/
def searchVidEsc (cs : List Char) : Option (List Char) := reSearch matchVidEscAt cs

/-- Plain-quote video URL search (tried second in `cmd_video`). -/
def searchVidPlain (cs : List Char) : Option (List Char) := reSearch matchVidPlainAt cs

/-- Poster/preview image URL search of `cmd_video`. -/
def searchPoster (cs : List Char) : Option (List Char) := reSearch matchPosterAt cs

/-- URL-extraction tail of `cmd_video` (lines 174-185): escaped pattern
first, plain pattern second, else a diagnostic with the last 500 characters
of the raw payload on stderr.  Returns (stdout, stderr) additions. -/
def videoUrlOut (full : List Char) : List Char × List Char :=
  match searchVidEsc full with
  | some u => (str "Video URL: " ++ u ++ str "\n", [])
  | none =>
    match searchVidPlain full with
    | some u => (str "Video URL: " ++ u ++ str "\n", [])
    | none =>
      ([], str "Could not extract video URL. Raw output:\n" ++ lastN 500 full ++ str "\n")

/-- Preview-image tail of `cmd_video` (lines 187-189). -/
def posterPart (full : List Char) : List Char :=
  match searchPoster full with
  | some p => str "Preview URL: " ++ p ++ str "\n"
  | none => []

/-- Process environment for key resolution: the parsed `--key` flag
(`args.key`, `none` when not passed) and the `GROK_API_KEY` environment
variable (`none` when unset). -/
structure Env where
  keyFlag : Option (List Char)
  envKey : Option (List Char)

/-- The error message of `get_key` (with the newline `print` appends). -/
def noKeyMsg : List Char :=
  str "ERROR: No API key. Set GROK_API_KEY env var or pass --key <key>\n"

/-- `get_key` (lines 28-36): `args.key or os.environ.get("GROK_API_KEY", "")`
(Python `or` falls through on an empty string), erroring out via
`sys.exit(1)` when the result is empty. -/
def get_key (e : Env) : Except (List Char) (List Char) :=
  let key :=
    match e.keyFlag with
    | some k => if k = [] then e.envKey.getD [] else k
    | none => e.envKey.getD []
  if key = [] then .error noKeyMsg else .ok key

/-- One HTTP request as issued by `make_request`. -/
structure Request where
  path : List Char
  key : List Char
  payload : Option Json
  stream : Bool

/-- Behaviour of the remote endpoint for a request: either `urlopen` raises
`HTTPError` (non-2xx status with a body), or it succeeds and the response
body is the given sequence of raw lines. -/
inductive ServerResp where
  | httpError (code : Nat) (body : List Char)
  | ok (lines : List (List Char))

/-- The ambient world: environment plus the two oracles — the remote server
and `json.loads` (returning `none` exactly on `json.JSONDecodeError`). -/
structure World where
  env : Env
  http : Request → ServerResp
  parse : List Char → Option Json

/-- Stderr line printed by `make_request` on an `HTTPError` (line 53). -/
def httpErrLine (code : Nat) (body : List Char) : List Char :=
  str "HTTP " ++ (toString code).toList ++ str ": " ++ body ++ str "\n"

/-- `make_request(path, key, payload, stream=True)` (lines 39-57): one
request; on `HTTPError` the caller exits after printing `httpErrLine`; on
success the raw line iterator is returned. -/
def make_request_stream (w : World) (path key : List Char) (payload : Option Json) :
    Request × Except (Nat × List Char) (List (List Char)) :=
  let req : Request := ⟨path, key, payload, true⟩
  (req,
    match w.http req with
    | .httpError c b => .error (c, b)
    | .ok lines => .ok lines)

/-- Result of `make_request` without `stream`: HTTP failure, an uncaught
`json.JSONDecodeError` from `json.loads(resp.read())`, or the decoded body. -/
inductive FetchJson where
  | httpFail (code : Nat) (body : List Char)
  | decodeFail
  | got (j : Json)

/-- `make_request(path, key, payload)` (lines 39-58): one request, body fully
read and decoded. -/
def make_request_json (w : World) (path key : List Char) (payload : Option Json) :
    Request × FetchJson :=
  let req : Request := ⟨path, key, payload, false⟩
  (req,
    match w.http req with
    | .httpError c b => .httpFail c b
    | .ok lines =>
      match w.parse (catLines lines) with
      | none => .decodeFail
      | some j => .got j)

/-- How an invocation terminated: normal exit (code 0), `sys.exit(1)`, or an
uncaught Python exception (nonzero exit via traceback). -/
inductive Term where
  | normal
  | exited
  | uncaught (e : PyErr)
deriving DecidableEq

/-- Observable result of one subcommand invocation: the requests it issued in
order, the text printed to stdout and stderr, and the termination. -/
structure CmdResult where
  requests : List Request
  stdout : List Char
  stderr : List Char
  term : Term

/-- Termination of a streaming chat/file invocation from the loop outcome. -/
def streamTerm : StreamOutcome → Term
  | .aborted e => .uncaught e
  | _ => .normal

/-- `{"role": "user", "content": ...}` message synthesized by `cmd_chat`,
`cmd_image` and `cmd_video`. -/
def userMessage (content : List Char) : Json :=
  Json.obj [(str "role", Json.str (str "user")), (str "content", Json.str content)]

/-- Payload of `cmd_chat` / `cmd_file` (model, messages, stream flag). -/
def chatPayload (model : List Char) (messages : Json) (streamFlag : Bool) : Json :=
  Json.obj [(str "model", Json.str model), (str "messages", messages),
    (str "stream", Json.bool streamFlag)]

/-- Payload of `cmd_image`. -/
def imagePayload (prompt : List Char) : Json :=
  Json.obj [(str "model", Json.str (str "grok-imagine-1.0")),
    (str "messages", Json.arr [userMessage prompt])]

/-- Payload of `cmd_video` (no `stream` key; streaming is requested via the
`make_request` argument only). -/
def videoPayload (prompt : List Char) : Json :=
  Json.obj [(str "model", Json.str (str "grok-imagine-1.0-video")),
    (str "messages", Json.arr [userMessage prompt])]

/-- Shared body of `cmd_chat` (lines 61-86) and `cmd_file` (lines 89-115)
after the messages value is in hand; for `cmd_file` the JSON file contents
are modelled as the already-loaded `messages` value. -/
def chatLike (w : World) (messages : Json) (model : List Char) (streamFlag : Bool) :
    CmdResult :=
  match get_key w.env with
  | .error m => ⟨[], [], m, .exited⟩
  | .ok key =>
    let payload := chatPayload model messages streamFlag
    if streamFlag then
      match make_request_stream w (str "/chat/completions") key (some payload) with
      | (req, .error (c, b)) => ⟨[req], [], httpErrLine c b, .exited⟩
      | (req, .ok lines) =>
        let r := processStream w.parse lines
        ⟨[req], r.out, [], streamTerm r.outcome⟩
    else
      match make_request_json w (str "/chat/completions") key (some payload) with
      | (req, .httpFail c b) => ⟨[req], [], httpErrLine c b, .exited⟩
      | (req, .decodeFail) => ⟨[req], [], [], .uncaught .jsonDecodeError⟩
      | (req, .got j) =>
        match extractMessageJson j with
        | .error e => ⟨[req], [], [], .uncaught e⟩
        | .ok content => ⟨[req], pyStr content ++ str "\n", [], .normal⟩

/-- `cmd_chat` (lines 61-86). -/
def cmd_chat (w : World) (message model : List Char) (streamFlag : Bool) : CmdResult :=
  chatLike w (Json.arr [userMessage message]) model streamFlag

/-- `cmd_file` (lines 89-115), with the loaded messages file as `messages`. -/
def cmd_file (w : World) (messages : Json) (model : List Char) (streamFlag : Bool) :
    CmdResult :=
  chatLike w messages model streamFlag

/-- The `for m in result.get("data", []): print(m["id"])` loop of
`cmd_models`, with the output printed before an uncaught exception. -/
def printIds : List Json → List Char × Option PyErr
  | [] => ([], none)
  | m :: rest =>
    match pyGetItemStr m (str "id") with
    | .error e => ([], some e)
    | .ok i =>
      let (out, err) := printIds rest
      (pyStr i ++ str "\n" ++ out, err)

/-- `cmd_models` (lines 118-122). -/
def cmd_models (w : World) : CmdResult :=
  match get_key w.env with
  | .error m => ⟨[], [], m, .exited⟩
  | .ok key =>
    match make_request_json w (str "/models") key none with
    | (req, .httpFail c b) => ⟨[req], [], httpErrLine c b, .exited⟩
    | (req, .decodeFail) => ⟨[req], [], [], .uncaught .jsonDecodeError⟩
    | (req, .got j) =>
      match pyDictGet j (str "data") (Json.arr []) with
      | .error e => ⟨[req], [], [], .uncaught e⟩
      | .ok dataVal =>
        match pyIter dataVal with
        | .error e => ⟨[req], [], [], .uncaught e⟩
        | .ok ms =>
          let (out, err) := printIds ms
          ⟨[req], out, [],
            match err with
            | some e => .uncaught e
            | none => .normal⟩

/-- The list comprehension `[m["id"] for m in result.get("data", [])]` of
`cmd_verify` (fails as a whole before anything is printed). -/
def collectIds : List Json → Except PyErr (List Json)
  | [] => .ok []
  | m :: rest =>
    match pyGetItemStr m (str "id") with
    | .error e => .error e
    | .ok i =>
      match collectIds rest with
      | .error e => .error e
      | .ok r => .ok (i :: r)

/-- `cmd_verify` (lines 125-132). -/
def cmd_verify (w : World) : CmdResult :=
  match get_key w.env with
  | .error m => ⟨[], [], m, .exited⟩
  | .ok key =>
    match make_request_json w (str "/models") key none with
    | (req, .httpFail c b) => ⟨[req], [], httpErrLine c b, .exited⟩
    | (req, .decodeFail) => ⟨[req], [], [], .uncaught .jsonDecodeError⟩
    | (req, .got j) =>
      match pyDictGet j (str "data") (Json.arr []) with
      | .error e => ⟨[req], [], [], .uncaught e⟩
      | .ok dataVal =>
        match pyIter dataVal with
        | .error e => ⟨[req], [], [], .uncaught e⟩
        | .ok ms =>
          match collectIds ms with
          | .error e => ⟨[req], [], [], .uncaught e⟩
          | .ok ids =>
            ⟨[req],
              str "OK — " ++ (toString ids.length).toList ++ str " models available\n" ++
                catLines (ids.map fun i => str "  " ++ pyStr i ++ str "\n"),
              [], .normal⟩

/-- `cmd_image` (lines 135-147): non-streaming request, then regex scrape of
the content; `re.search` on a non-string content raises `TypeError`. -/
def cmd_image (w : World) (prompt : List Char) : CmdResult :=
  match get_key w.env with
  | .error m => ⟨[], [], m, .exited⟩
  | .ok key =>
    match make_request_json w (str "/chat/completions") key (some (imagePayload prompt)) with
    | (req, .httpFail c b) => ⟨[req], [], httpErrLine c b, .exited⟩
    | (req, .decodeFail) => ⟨[req], [], [], .uncaught .jsonDecodeError⟩
    | (req, .got j) =>
      match extractMessageJson j with
      | .error e => ⟨[req], [], [], .uncaught e⟩
      | .ok (Json.str s) =>
        match searchSrc s with
        | some u => ⟨[req], str "Image URL: " ++ u ++ str "\n", [], .normal⟩
        | none => ⟨[req], s ++ str "\n", [], .normal⟩
      | .ok _ => ⟨[req], [], [], .uncaught .typeError⟩

/-- Stderr notice printed by `cmd_video` before the request (line 156). -/
def genVideoMsg : List Char := str "Generating video (this takes 20–90 seconds)...\n"

/-- `cmd_video` (lines 150-189): streaming request, progress echo on stderr,
then URL extraction from the concatenated raw payload. -/
def cmd_video (w : World) (prompt : List Char) : CmdResult :=
  match get_key w.env with
  | .error m => ⟨[], [], m, .exited⟩
  | .ok key =>
    match make_request_stream w (str "/chat/completions") key (some (videoPayload prompt)) with
    | (req, .error (c, b)) => ⟨[req], [], genVideoMsg ++ httpErrLine c b, .exited⟩
    | (req, .ok lines) =>
      let full := catLines lines
      let (uOut, uErr) := videoUrlOut full
      ⟨[req], uOut ++ posterPart full,
        genVideoMsg ++ videoProgress w.parse [] lines ++ str "\n" ++ uErr, .normal⟩

/-! ### Shared concrete material for witnesses and counterexamples -/

/-- A concrete `json.loads` oracle given by a finite table. -/
def tableParse (tbl : List (List Char × Json)) : List Char → Option Json :=
  fun s => lookupField tbl s

/-- A well-formed streamed chunk whose `choices[0].delta.content` is `c`. -/
def deltaObj (c : List Char) : Json :=
  Json.obj [(str "choices",
    Json.arr [Json.obj [(str "delta", Json.obj [(str "content", Json.str c)])]])]

/-- A well-formed non-streaming body whose `choices[0].message.content` is `c`. -/
def msgObj (c : List Char) : Json :=
  Json.obj [(str "choices",
    Json.arr [Json.obj [(str "message", Json.obj [(str "content", Json.str c)])]])]

/-! ### Helper lemmas -/

/-- `data: ` is a prefix of `data: ` followed by anything. -/
theorem isPre_data_append (s : List Char) :
    List.isPrefixOf (str "data: ") (str "data: " ++ s) = true := by
  simp [str, List.isPrefixOf_cons₂]

/-- Dropping 6 characters removes exactly the `data: ` prefix. -/
theorem drop6_data_append (s : List Char) :
    List.drop 6 (str "data: " ++ s) = s := rfl

/-! ### C1 -/

/-- Claim C1: for a streamed response whose lines strip to `data: ` chunks
with well-formed string deltas, followed by a `data: [DONE]` sentinel and
arbitrary further lines, the printed text is the concatenation of the delta
contents in arrival order followed by exactly one newline, and the lines
after the sentinel are left unconsumed. -/
theorem c1_stream_concat (parse : List Char → Option Json)
    (items : List (List Char × List Char × List Char)) (dl : List Char)
    (post : List (List Char))
    (hitems : ∀ it ∈ items, pyStrip it.1 = str "data: " ++ it.2.1 ∧
      it.2.1 ≠ str "[DONE]" ∧ chunkDelta parse it.2.1 = some (Json.str it.2.2))
    (hdl : pyStrip dl = str "data: [DONE]") :
    processStream parse (items.map (fun it => it.1) ++ dl :: post) =
      ⟨catLines (items.map fun it => it.2.2) ++ str "\n", .done post⟩ := by
  induction items with
  | nil =>
    have h1 : List.isPrefixOf (str "data: ") (str "data: [DONE]") = true := rfl
    have h2 : List.drop 6 (str "data: [DONE]") = str "[DONE]" := rfl
    simp [processStream, stepLine, hdl, h1, h2, catLines]
  | cons hd tl ih =>
    obtain ⟨hstrip, hnd, hcd⟩ := hitems hd (List.mem_cons_self _ _)
    cases hp : parse hd.2.1 with
    | none => simp [chunkDelta, hp] at hcd
    | some j =>
      cases he : extractDeltaJson j with
      | error e => simp [chunkDelta, hp, he] at hcd
      | ok c =>
        have hc : c = Json.str hd.2.2 := by
          simpa [chunkDelta, hp, he] using hcd
        subst hc
        have ih' := ih fun it hit => hitems it (List.mem_cons_of_mem _ hit)
        simp only [List.map_cons, List.cons_append, processStream, catLines]
        rw [hstrip]
        simp only [stepLine, isPre_data_append, drop6_data_append, if_pos rfl,
          if_neg hnd, hp, he, ih', pyStr]
        simp [ih', List.append_assoc]

/-- Witness for C1: a two-chunk stream printing `Hello` plus a newline, with
the line after the sentinel unconsumed. -/
theorem c1_stream_concat_witness :
    processStream (tableParse [(str "A", deltaObj (str "Hel")), (str "B", deltaObj (str "lo"))])
      [str "data: A", str "data: B", str "data: [DONE]", str "data: zzz"] =
      ⟨str "Hello" ++ str "\n", .done [str "data: zzz"]⟩ := by
  have h := c1_stream_concat
    (tableParse [(str "A", deltaObj (str "Hel")), (str "B", deltaObj (str "lo"))])
    [(str "data: A", str "A", str "Hel"), (str "data: B", str "B", str "lo")]
    (str "data: [DONE]") [str "data: zzz"]
    (by
      intro it hit
      simp only [List.mem_cons, List.mem_singleton] at hit
      rcases hit with h | h | h
      · subst h; exact ⟨rfl, by decide, rfl⟩
      · subst h; exact ⟨rfl, by decide, rfl⟩
      · cases h)
    rfl
  simpa using h

/-! ### C2 -/

/-- The loop body preserves display-equality of the tail runs. -/
theorem stepLine_display_congr (parse : List Char → Option Json) (l : List Char)
    (rest1 rest2 : List (List Char)) (r1 r2 : StreamRun)
    (h : display r1 = display r2) :
    display (stepLine parse l rest1 r1) = display (stepLine parse l rest2 r2) := by
  unfold stepLine
  cases hb : List.isPrefixOf (str "data: ") l with
  | false => simpa [hb] using h
  | true =>
    by_cases hd : List.drop 6 l = str "[DONE]"
    · simp [hb, hd, display, outKind]
    · cases hp : parse (List.drop 6 l) with
      | none => simpa [hb, hd, hp] using h
      | some j =>
        cases he : extractDeltaJson j with
        | error e => simp [hb, hd, hp, he]
        | ok c =>
          simp only [display] at h
          have hout : r1.out = r2.out := congrArg Prod.fst h
          have hkind : outKind r1.outcome = outKind r2.outcome := congrArg Prod.snd h
          simp [hb, hd, hp, he, display, hout, hkind]

/-- Claim C2: a `data: ` line whose chunk is not valid JSON (and is not the
sentinel) is skipped silently — the printed text and abort status of the
whole stream equal those of the same stream with that line removed. -/
theorem c2_invalid_chunk_skipped (parse : List Char → Option Json)
    (pre post : List (List Char)) (bad : List Char)
    (hpref : List.isPrefixOf (str "data: ") (pyStrip bad) = true)
    (hnd : List.drop 6 (pyStrip bad) ≠ str "[DONE]")
    (hbad : parse (List.drop 6 (pyStrip bad)) = none) :
    display (processStream parse (pre ++ bad :: post)) =
      display (processStream parse (pre ++ post)) := by
  induction pre with
  | nil =>
    simp only [List.nil_append, processStream, stepLine, hpref, hbad, if_neg hnd, if_true]
  | cons a pre' ih =>
    simp only [List.cons_append, processStream]
    exact stepLine_display_congr parse (pyStrip a) _ _ _ _ ih

/-- Witness for C2: removing a malformed chunk line leaves the display of a
concrete stream unchanged. -/
theorem c2_invalid_chunk_skipped_witness :
    display (processStream (tableParse [(str "A", deltaObj (str "ok"))])
      [str "data: A", str "data: @@", str "data: [DONE]"]) =
      display (processStream (tableParse [(str "A", deltaObj (str "ok"))])
        [str "data: A", str "data: [DONE]"]) :=
  c2_invalid_chunk_skipped (tableParse [(str "A", deltaObj (str "ok"))])
    [str "data: A"] [str "data: [DONE]"] (str "data: @@")
    rfl (by decide) rfl

/-! ### C10 -/

/-- Claim C10: only JSON-decode failures are tolerated by the streaming
decoder — a chunk that parses as JSON but lacks the `choices[0].delta`
structure (an object with no `choices`, or an empty `choices` array) raises
an uncaught exception: the loop aborts with `KeyError` / `IndexError`,
prints nothing, and never reaches the sentinel; at the command level the
invocation terminates with the uncaught exception. -/
theorem c10_structural_error_aborts :
    processStream (tableParse [(str "NC", Json.obj [])])
      [str "data: NC", str "data: [DONE]"] = ⟨[], .aborted .keyError⟩ ∧
    processStream (tableParse [(str "EC", Json.obj [(str "choices", Json.arr [])])])
      [str "data: EC", str "data: [DONE]"] = ⟨[], .aborted .indexError⟩ ∧
    (cmd_chat
      ⟨⟨none, some (str "k")⟩,
        fun _ => ServerResp.ok [str "data: NC", str "data: [DONE]"],
        tableParse [(str "NC", Json.obj [])]⟩
      (str "hi") (str "grok-3") true).term = .uncaught .keyError :=
  ⟨rfl, rfl, rfl⟩

/-! ### C3 -/

/-- A missing (or empty) flag together with a missing (or empty) environment
variable makes `get_key` fail with the no-key error. -/
theorem get_key_noKey (e : Env) (hf : e.keyFlag = none ∨ e.keyFlag = some [])
    (he : e.envKey = none ∨ e.envKey = some []) : get_key e = .error noKeyMsg := by
  rcases hf with hf | hf <;> rcases he with he | he <;> simp [get_key, hf, he]

/-- Counterexample to claim C3 as stated: key resolution does not always use
the explicit `--key` value in preference to `GROK_API_KEY`.  With the
explicit key `""` and the environment variable `ek`, Python's
`args.key or os.environ.get(...)` resolves to the environment value, not the
explicit one (which, being empty, would have to fail with the no-key
error). -/
theorem c3_counterexample :
    get_key ⟨some [], some (str "ek")⟩ = .ok (str "ek") ∧
      Except.ok (str "ek") ≠ (.error noKeyMsg : Except (List Char) (List Char)) ∧
      str "ek" ≠ [] :=
  ⟨rfl, fun h => Except.noConfusion h, by decide⟩

/-- Claim C3 amended: a NONEMPTY explicit `--key` takes precedence over the
environment variable (an empty explicit key falls through to it); and when
neither source provides a nonempty key, every subcommand prints the error to
stderr and exits with code 1 having issued no network request. -/
theorem c3_amended_key_resolution :
    (∀ (e : Env) (k : List Char), e.keyFlag = some k → k ≠ [] → get_key e = .ok k) ∧
    (∀ (w : World) (m mo pr : List Char) (sf : Bool) (msgs : Json),
      (w.env.keyFlag = none ∨ w.env.keyFlag = some []) →
      (w.env.envKey = none ∨ w.env.envKey = some []) →
      cmd_chat w m mo sf = ⟨[], [], noKeyMsg, .exited⟩ ∧
      cmd_file w msgs mo sf = ⟨[], [], noKeyMsg, .exited⟩ ∧
      cmd_models w = ⟨[], [], noKeyMsg, .exited⟩ ∧
      cmd_verify w = ⟨[], [], noKeyMsg, .exited⟩ ∧
      cmd_image w pr = ⟨[], [], noKeyMsg, .exited⟩ ∧
      cmd_video w pr = ⟨[], [], noKeyMsg, .exited⟩) := by
  constructor
  · intro e k hk hne
    simp [get_key, hk, hne]
  · intro w m mo pr sf msgs hf he
    have hk := get_key_noKey w.env hf he
    exact ⟨by simp [cmd_chat, chatLike, hk], by simp [cmd_file, chatLike, hk],
      by simp [cmd_models, hk], by simp [cmd_verify, hk],
      by simp [cmd_image, hk], by simp [cmd_video, hk]⟩

/-- Witness for the amended C3: a nonempty flag wins over a set environment
variable, and with no key at all `cmd_models` exits with the error having
issued no request. -/
theorem c3_amended_witness :
    get_key ⟨some (str "flagk"), some (str "envk")⟩ = .ok (str "flagk") ∧
    cmd_models ⟨⟨none, none⟩, fun _ => ServerResp.ok [], tableParse []⟩ =
      ⟨[], [], noKeyMsg, .exited⟩ := by
  refine ⟨?_, ?_⟩
  · exact c3_amended_key_resolution.1 ⟨some (str "flagk"), some (str "envk")⟩
      (str "flagk") rfl (by decide)
  · exact (c3_amended_key_resolution.2
      ⟨⟨none, none⟩, fun _ => ServerResp.ok [], tableParse []⟩ [] [] [] false Json.null
      (Or.inl rfl) (Or.inl rfl)).2.2.1

/-! ### C4 -/

/-- Claim C4: when the server answers any request with a non-2xx status
(`urlopen` raising `HTTPError`), every subcommand issues exactly that one
request (no retry), prints `HTTP <code>: <body>` to stderr, prints nothing
to stdout, and terminates via `sys.exit(1)`. -/
theorem c4_http_error_fatal (w : World) (key : List Char) (code : Nat)
    (body m mo pr : List Char) (sf : Bool) (msgs : Json)
    (hk : get_key w.env = .ok key)
    (hh : ∀ r, w.http r = .httpError code body) :
    cmd_chat w m mo sf =
      ⟨[⟨str "/chat/completions", key,
          some (chatPayload mo (Json.arr [userMessage m]) sf), sf⟩],
        [], httpErrLine code body, .exited⟩ ∧
    cmd_file w msgs mo sf =
      ⟨[⟨str "/chat/completions", key, some (chatPayload mo msgs sf), sf⟩],
        [], httpErrLine code body, .exited⟩ ∧
    cmd_models w =
      ⟨[⟨str "/models", key, none, false⟩], [], httpErrLine code body, .exited⟩ ∧
    cmd_verify w =
      ⟨[⟨str "/models", key, none, false⟩], [], httpErrLine code body, .exited⟩ ∧
    cmd_image w pr =
      ⟨[⟨str "/chat/completions", key, some (imagePayload pr), false⟩],
        [], httpErrLine code body, .exited⟩ ∧
    cmd_video w pr =
      ⟨[⟨str "/chat/completions", key, some (videoPayload pr), true⟩],
        [], genVideoMsg ++ httpErrLine code body, .exited⟩ := by
  refine ⟨?_, ?_, ?_, ?_, ?_, ?_⟩
  · cases sf <;> simp [cmd_chat, chatLike, hk, make_request_stream, make_request_json, hh]
  · cases sf <;> simp [cmd_file, chatLike, hk, make_request_stream, make_request_json, hh]
  · simp [cmd_models, hk, make_request_json, hh]
  · simp [cmd_verify, hk, make_request_json, hh]
  · simp [cmd_image, hk, make_request_json, hh]
  · simp [cmd_video, hk, make_request_stream, hh]

/-- Witness for C4: a 401 response makes `cmd_models` exit after one request
with the status line on stderr. -/
theorem c4_http_error_fatal_witness :
    cmd_models
      ⟨⟨some (str "k"), none⟩, fun _ => ServerResp.httpError 401 (str "denied"),
        tableParse []⟩ =
      ⟨[⟨str "/models", str "k", none, false⟩], [],
        httpErrLine 401 (str "denied"), .exited⟩ :=
  (c4_http_error_fatal
    ⟨⟨some (str "k"), none⟩, fun _ => ServerResp.httpError 401 (str "denied"),
      tableParse []⟩
    (str "k") 401 (str "denied") [] [] [] false Json.null
    rfl (fun _ => rfl)).2.2.1

/-! ### C8 -/

/-- Claim C8: for a non-streaming chat/file response decoding to a JSON
object with at least one choice whose message content is the string `s`, the
text printed to stdout is exactly `s` followed by the newline of `print`,
and the invocation terminates normally. -/
theorem c8_nonstream_content (w : World) (m mo key : List Char) (msgs : Json)
    (lines : List (List Char)) (respJ c0 msgJ : Json) (cs : List Json) (s : List Char)
    (hk : get_key w.env = .ok key)
    (hh : ∀ r, w.http r = .ok lines)
    (hp : w.parse (catLines lines) = some respJ)
    (hch : pyGetItemStr respJ (str "choices") = .ok (Json.arr (c0 :: cs)))
    (hmsg : pyGetItemStr c0 (str "message") = .ok msgJ)
    (hcon : pyGetItemStr msgJ (str "content") = .ok (Json.str s)) :
    (cmd_chat w m mo false).stdout = s ++ str "\n" ∧
    (cmd_chat w m mo false).term = .normal ∧
    (cmd_file w msgs mo false).stdout = s ++ str "\n" ∧
    (cmd_file w msgs mo false).term = .normal := by
  have hx : extractMessageJson respJ = .ok (Json.str s) := by
    simp [extractMessageJson, hch, pyGetItemZero, hmsg, hcon]
  refine ⟨?_, ?_, ?_, ?_⟩ <;>
    simp [cmd_chat, cmd_file, chatLike, hk, make_request_json, hh, hp, hx, pyStr]

/-- Witness for C8: a concrete response whose single choice carries the
content `hi there`. -/
theorem c8_nonstream_content_witness :
    (cmd_chat
      ⟨⟨some (str "k"), none⟩, fun _ => ServerResp.ok [str "BODY"],
        tableParse [(str "BODY", msgObj (str "hi there"))]⟩
      (str "q") (str "grok-3") false).stdout = str "hi there" ++ str "\n" :=
  (c8_nonstream_content
    ⟨⟨some (str "k"), none⟩, fun _ => ServerResp.ok [str "BODY"],
      tableParse [(str "BODY", msgObj (str "hi there"))]⟩
    (str "q") (str "grok-3") (str "k") Json.null [str "BODY"]
    (msgObj (str "hi there"))
    (Json.obj [(str "message", Json.obj [(str "content", Json.str (str "hi there"))])])
    (Json.obj [(str "content", Json.str (str "hi there"))]) [] (str "hi there")
    rfl (fun _ => rfl) rfl rfl rfl rfl).1

/-! ### C9 -/

/-- The printing loop of `cmd_models` over records that all carry a string
`id` prints one line per record, in order, with no exception. -/
theorem printIds_strings (entries : List (List (List Char × Json) × List Char))
    (hids : ∀ e ∈ entries, lookupField e.1 (str "id") = some (Json.str e.2)) :
    printIds (entries.map fun e => Json.obj e.1) =
      (catLines (entries.map fun e => e.2 ++ str "\n"), none) := by
  induction entries with
  | nil => simp [printIds, catLines]
  | cons e t ih =>
    have he := hids e (List.mem_cons_self _ _)
    have ih' := ih fun x hx => hids x (List.mem_cons_of_mem _ hx)
    simp [printIds, pyGetItemStr, he, ih', catLines, pyStr, List.append_assoc]

/-- Claim C9: for a `/models` response decoding to an object whose `data`
field is an array of records each carrying a string `id`, `cmd_models`
prints exactly one line per record, equal to its `id`, in array order. -/
theorem c9_models_lines (w : World) (key : List Char) (lines : List (List Char))
    (fields : List (List Char × Json))
    (entries : List (List (List Char × Json) × List Char))
    (hk : get_key w.env = .ok key)
    (hh : ∀ r, w.http r = .ok lines)
    (hp : w.parse (catLines lines) = some (Json.obj fields))
    (hdata : lookupField fields (str "data") =
      some (Json.arr (entries.map fun e => Json.obj e.1)))
    (hids : ∀ e ∈ entries, lookupField e.1 (str "id") = some (Json.str e.2)) :
    (cmd_models w).stdout = catLines (entries.map fun e => e.2 ++ str "\n") ∧
    (cmd_models w).term = .normal := by
  have hprint := printIds_strings entries hids
  constructor <;>
    simp [cmd_models, hk, make_request_json, hh, hp, pyDictGet, hdata, pyIter, hprint]

/-- Witness for C9: a two-model listing printed as two lines in order. -/
theorem c9_models_lines_witness :
    (cmd_models
      ⟨⟨some (str "k"), none⟩, fun _ => ServerResp.ok [str "MB"],
        tableParse [(str "MB",
          Json.obj [(str "data", Json.arr
            [Json.obj [(str "id", Json.str (str "grok-3"))],
             Json.obj [(str "id", Json.str (str "grok-4"))]])])]⟩).stdout =
      str "grok-3" ++ str "\n" ++ (str "grok-4" ++ str "\n" ++ []) := by
  have h := c9_models_lines
    ⟨⟨some (str "k"), none⟩, fun _ => ServerResp.ok [str "MB"],
      tableParse [(str "MB",
        Json.obj [(str "data", Json.arr
          [Json.obj [(str "id", Json.str (str "grok-3"))],
           Json.obj [(str "id", Json.str (str "grok-4"))]])])]⟩
    (str "k") [str "MB"]
    [(str "data", Json.arr
      [Json.obj [(str "id", Json.str (str "grok-3"))],
       Json.obj [(str "id", Json.str (str "grok-4"))]])]
    [([(str "id", Json.str (str "grok-3"))], str "grok-3"),
     ([(str "id", Json.str (str "grok-4"))], str "grok-4")]
    rfl (fun _ => rfl) rfl rfl
    (by
      intro e he
      simp only [List.mem_cons, List.mem_singleton] at he
      rcases he with h | h | h
      · subst h; rfl
      · subst h; rfl
      · cases h)
  simpa [catLines] using h.1

/-! ### C5 -/

/-- Counterexample to claim C5 as stated: the progress line is NOT reprinted
"if and only if the trimmed delta text differs from the last printed value".
Two consecutive deltas `进度50%` and ` 进度50%` have equal trimmed text, yet
the second is reprinted, because line 167 compares the RAW content against
the stored (trimmed) value. -/
theorem c5_counterexample :
    pyStrip (str " 进度50%") = pyStrip (str "进度50%") ∧
    videoProgress
      (tableParse [(str "进度A", deltaObj (str "进度50%")),
        (str "进度B", deltaObj (str " 进度50%"))]) []
      [str "data: 进度A", str "data: 进度B"] =
      str "\r进度50%" ++ str "\r进度50%" :=
  ⟨rfl, rfl⟩

/-- Claim C5 amended: for a progress-marked line whose chunk decodes to a
string delta `c`, the video loop overwrites the progress line (printing
`\r` plus the trimmed text and storing the trimmed text) if and only if the
trimmed text is nonempty AND the raw (untrimmed) text differs from the
stored last value; in particular equal trimmed text may be reprinted when
the raw text differs. -/
theorem c5_amended_progress (parse : List Char → Option Json) (last line : List Char)
    (rest : List (List Char)) (j : Json) (c : List Char)
    (hmark : containsSub (str "进度") (pyStrip line) = true)
    (hp : parse (pyRemovePre (str "data: ") (pyStrip line)) = some j)
    (he : extractDeltaJson j = .ok (Json.str c)) :
    videoProgress parse last (line :: rest) =
      if pyStrip c ≠ [] ∧ c ≠ last
      then str "\r" ++ pyStrip c ++ videoProgress parse (pyStrip c) rest
      else videoProgress parse last rest := by
  simp only [videoProgress, hmark, hp, he, if_true]

/-- Witness for the amended C5: one progress line, printed because its
nonempty trimmed text differs from the initial empty stored value. -/
theorem c5_amended_progress_witness :
    videoProgress (tableParse [(str "进度A", deltaObj (str "进度50%"))]) []
      [str "data: 进度A"] = str "\r进度50%" := by
  have h := c5_amended_progress (tableParse [(str "进度A", deltaObj (str "进度50%"))])
    [] (str "data: 进度A") [] (deltaObj (str "进度50%")) (str "进度50%") rfl rfl rfl
  rw [h]
  decide

/-! ### Regex search lemmas (for C6 and C7) -/

/-- A literal prefix always strips from itself followed by anything. -/
theorem stripPre_append (p s : List Char) : stripPre p (p ++ s) = some s := by
  induction p with
  | nil => rfl
  | cons c t ih => simp [stripPre, ih]

/-- A list is a `isPrefixOf`-prefix of itself followed by anything. -/
theorem isPrefixOf_append_self (p s : List Char) :
    List.isPrefixOf p (p ++ s) = true := by
  induction p with
  | nil => simp
  | cons c t ih => simp [List.isPrefixOf_cons₂, ih]

/-- `takeWhile`/`dropWhile` on a passing run followed by a failing head. -/
theorem takeWhile_stops (p : Char → Bool) (u : List Char) (c : Char) (b : List Char)
    (h : ∀ x ∈ u, p x = true) (hc : p c = false) :
    List.takeWhile p (u ++ c :: b) = u ∧ List.dropWhile p (u ++ c :: b) = c :: b := by
  induction u with
  | nil => simp [List.takeWhile, List.dropWhile, hc]
  | cons x t ih =>
    have hx := h x (List.mem_cons_self _ _)
    have iht := ih fun y hy => h y (List.mem_cons_of_mem _ hy)
    simp [List.takeWhile, List.dropWhile, hx, iht.1, iht.2]

/-- `re.search` finds a match whenever the single-position matcher succeeds
at some suffix. -/
theorem reSearch_of_matchAt (mAt : List Char → Option (List Char))
    (a s u : List Char) (h : mAt s = some u) :
    ∃ v, reSearch mAt (a ++ s) = some v := by
  induction a with
  | nil =>
    cases s with
    | nil => exact ⟨u, by simpa [reSearch] using h⟩
    | cons c t => exact ⟨u, by simp [reSearch, h]⟩
  | cons x a' ih =>
    rcases ih with ⟨v, hv⟩
    cases hmx : mAt (x :: (a' ++ s)) with
    | some w => exact ⟨w, by simp [reSearch, hmx]⟩
    | none => exact ⟨v, by simp [reSearch, hmx, hv]⟩

/-- The image pattern matches at the start of `src="u"` followed by anything
when `u` is nonempty and quote-free, capturing `u`. -/
theorem matchSrcAt_hit (u b : List Char) (hne : u ≠ [])
    (hq : ∀ c ∈ u, (c == '"') = false) :
    matchSrcAt (str "src=\"" ++ u ++ '"' :: b) = some u := by
  have hs := stripPre_append (str "src=\"") (u ++ '"' :: b)
  have hall : ∀ x ∈ u, (fun c => !(c == '"')) x = true := by
    intro x hx
    simp [hq x hx]
  have hstep := takeWhile_stops (fun c => !(c == '"')) u '"' b hall (by simp)
  simp only [matchSrcAt, List.append_assoc, stripPre_append, hstep.1, hstep.2]
  simp [hne]

/-! ### C7 -/

/-- Claim C7: for a non-streaming image response whose message content is the
string `s`, the command prints `Image URL: ` plus the captured URL when the
`src="..."` pattern matches, and the raw content verbatim when it does not;
moreover the pattern does match whenever `s` contains `src="u"` with a
nonempty quote-free `u`. -/
theorem c7_image_url (w : World) (pr key : List Char) (lines : List (List Char))
    (respJ c0 msgJ : Json) (cs : List Json) (s : List Char)
    (hk : get_key w.env = .ok key)
    (hh : ∀ r, w.http r = .ok lines)
    (hp : w.parse (catLines lines) = some respJ)
    (hch : pyGetItemStr respJ (str "choices") = .ok (Json.arr (c0 :: cs)))
    (hmsg : pyGetItemStr c0 (str "message") = .ok msgJ)
    (hcon : pyGetItemStr msgJ (str "content") = .ok (Json.str s)) :
    (searchSrc s = none → (cmd_image w pr).stdout = s ++ str "\n") ∧
    (∀ u, searchSrc s = some u →
      (cmd_image w pr).stdout = str "Image URL: " ++ u ++ str "\n") ∧
    (∀ a u b, s = a ++ str "src=\"" ++ u ++ '"' :: b → u ≠ [] →
      (∀ c ∈ u, (c == '"') = false) → ∃ v, searchSrc s = some v) := by
  have hx : extractMessageJson respJ = .ok (Json.str s) := by
    simp [extractMessageJson, hch, pyGetItemZero, hmsg, hcon]
  refine ⟨?_, ?_, ?_⟩
  · intro hn
    simp [cmd_image, hk, make_request_json, hh, hp, hx, hn]
  · intro u hu
    simp [cmd_image, hk, make_request_json, hh, hp, hx, hu]
  · intro a u b hs hne hq
    subst hs
    simpa [searchSrc] using
      reSearch_of_matchAt matchSrcAt a _ u (matchSrcAt_hit u b hne hq)

/-- Witness for C7: content `<img src="https://x/y.png">` prints
`Image URL: https://x/y.png`. -/
theorem c7_image_url_witness :
    (cmd_image
      ⟨⟨some (str "k"), none⟩, fun _ => ServerResp.ok [str "B7"],
        tableParse [(str "B7", msgObj (str "<img src=\"https://x/y.png\">"))]⟩
      (str "apple")).stdout = str "Image URL: https://x/y.png" ++ str "\n" := by
  have h := (c7_image_url
    ⟨⟨some (str "k"), none⟩, fun _ => ServerResp.ok [str "B7"],
      tableParse [(str "B7", msgObj (str "<img src=\"https://x/y.png\">"))]⟩
    (str "apple") (str "k") [str "B7"]
    (msgObj (str "<img src=\"https://x/y.png\">"))
    (Json.obj [(str "message",
      Json.obj [(str "content", Json.str (str "<img src=\"https://x/y.png\">"))])])
    (Json.obj [(str "content", Json.str (str "<img src=\"https://x/y.png\">"))])
    [] (str "<img src=\"https://x/y.png\">")
    rfl (fun _ => rfl) rfl rfl rfl rfl).2.1 (str "https://x/y.png") rfl
  exact h.trans (by decide)

/-! ### C6 -/

/-- The escaped video pattern matches at the start of
`src=\"https://<m0>.mp4\"` followed by anything, for a nonempty `m0` of
quote-free backslash-free characters, capturing `https://<m0>.mp4`. -/
theorem matchVidEscAt_hit (m0 b : List Char) (hne : m0 ≠ [])
    (hm : ∀ c ∈ m0, vidChar c = true) :
    matchVidEscAt (str "src=\\\"https://" ++ ((m0 ++ str ".mp4") ++ '\\' :: '"' :: b)) =
      some (str "https://" ++ (m0 ++ str ".mp4")) := by
  have hall : ∀ x ∈ m0 ++ str ".mp4", vidChar x = true := by
    intro x hx
    rcases List.mem_append.1 hx with h | h
    · exact hm x h
    · have h4 : str ".mp4" = ['.', 'm', 'p', '4'] := rfl
      rw [h4] at h
      fin_cases h <;> rfl
  have hstep := takeWhile_stops vidChar (m0 ++ str ".mp4") '\\' ('"' :: b) hall rfl
  have h1 : 0 < m0.length := List.length_pos.2 hne
  have h4 : (str ".mp4").length = 4 := rfl
  have hend : endsWith (str ".mp4") (m0 ++ str ".mp4") = true := by
    unfold endsWith
    rw [List.reverse_append]
    exact isPrefixOf_append_self _ _
  simp only [matchVidEscAt, stripPre_append, hstep.1, hstep.2]
  simp [hend]
  omega

/-- Claim C6: the video command scans the concatenated raw payload with the
escaped-quote `.mp4` pattern first and the plain-quote pattern second,
printing `Video URL: <url>` on stdout on a match; when neither matches it
prints the last 500 characters of the raw payload as a diagnostic on the
error stream; and the escaped pattern does match whenever the payload
contains `src=\"https://<m0>.mp4\"`. -/
theorem c6_video_url (w : World) (pr key : List Char) (lines : List (List Char))
    (hk : get_key w.env = .ok key)
    (hh : ∀ r, w.http r = .ok lines) :
    (∀ u, searchVidEsc (catLines lines) = some u →
      (cmd_video w pr).stdout =
        (str "Video URL: " ++ u ++ str "\n") ++ posterPart (catLines lines)) ∧
    (searchVidEsc (catLines lines) = none →
      ∀ u, searchVidPlain (catLines lines) = some u →
      (cmd_video w pr).stdout =
        (str "Video URL: " ++ u ++ str "\n") ++ posterPart (catLines lines)) ∧
    (searchVidEsc (catLines lines) = none → searchVidPlain (catLines lines) = none →
      (cmd_video w pr).stdout = posterPart (catLines lines) ∧
      (cmd_video w pr).stderr =
        genVideoMsg ++ videoProgress w.parse [] lines ++ str "\n" ++
          (str "Could not extract video URL. Raw output:\n" ++
            lastN 500 (catLines lines) ++ str "\n")) ∧
    (∀ a m0 b, catLines lines =
        a ++ str "src=\\\"https://" ++ ((m0 ++ str ".mp4") ++ '\\' :: '"' :: b) →
      m0 ≠ [] → (∀ c ∈ m0, vidChar c = true) →
      ∃ v, searchVidEsc (catLines lines) = some v) := by
  refine ⟨?_, ?_, ?_, ?_⟩
  · intro u hu
    simp [cmd_video, hk, make_request_stream, hh, videoUrlOut, hu]
  · intro hn u hu
    simp [cmd_video, hk, make_request_stream, hh, videoUrlOut, hn, hu]
  · intro hn1 hn2
    constructor <;>
      simp [cmd_video, hk, make_request_stream, hh, videoUrlOut, hn1, hn2]
  · intro a m0 b hfull hne hm
    rw [hfull]
    simpa [searchVidEsc] using
      reSearch_of_matchAt matchVidEscAt a _ _ (matchVidEscAt_hit m0 b hne hm)

/-- Witness for C6: a payload containing `src=\"https://x/y.mp4\"` makes the
video command print `Video URL: https://x/y.mp4`. -/
theorem c6_video_url_witness :
    (cmd_video
      ⟨⟨some (str "k"), none⟩,
        fun _ => ServerResp.ok [str "pre src=\\\"https://x/y.mp4\\\" post"],
        tableParse []⟩
      (str "cat")).stdout = str "Video URL: https://x/y.mp4" ++ str "\n" := by
  have h := (c6_video_url
    ⟨⟨some (str "k"), none⟩,
      fun _ => ServerResp.ok [str "pre src=\\\"https://x/y.mp4\\\" post"],
      tableParse []⟩
    (str "cat") (str "k") [str "pre src=\\\"https://x/y.mp4\\\" post"]
    rfl (fun _ => rfl)).1 (str "https://x/y.mp4") rfl
  exact h.trans (by decide)

end Grok
